import Mathlib

/-!
# Verification of the Lisk chain-engine core

Shallow embedding of the `Chain` class (`src/src/commands/node/start/index.ts`,
the chain-engine portion of the sample) together with the collaborators it
needs.  The parts of the repository that are referenced but not contained in
the source sample (`./block_reward`, `./data_access`, `./state_store`,
`./slots`, and the DPoS proof-of-misbehavior transaction asset) are modelled
from the specification, and each such definition says so in its doc comment.

Buffers are modelled as lists of naturals, bigint amounts as `Int` where they
may go negative and as `Nat` otherwise, and the opaque codec as a tagged value
type whose `validators` variant round-trips exactly.
-/

namespace LiskChain

/-- Byte buffers (`Buffer` in the source) modelled as lists of naturals. -/
abbrev Bytes := List Nat

/-- The block-header fields the chain engine reads.  The version-dependent
asset blob is kept out of the header: the genesis asset is modelled on
`GenesisBlock` below, and no claim needs any other asset field. -/
structure BlockHeader where
  version : Nat
  height : Nat
  previousBlockID : Bytes
  timestamp : Nat
  generatorPublicKey : Bytes
  id : Bytes
deriving DecidableEq, Repr

/-- A block; the payload plays no role in the claims, so only the header is
carried. -/
structure Block where
  header : BlockHeader
deriving DecidableEq, Repr

/-- A persisted validator entry (`Validator` in `./types`). -/
structure Validator where
  address : Bytes
  minActiveHeight : Nat
  isConsensusParticipant : Bool
deriving DecidableEq, Repr

/-- A candidate passed to `Chain.setValidators` (address plus participation
flag; `minActiveHeight` is computed by the method). -/
structure ValidatorCandidate where
  address : Bytes
  isConsensusParticipant : Bool
deriving DecidableEq, Repr

/-- The genesis-block asset: initial accounts (kept as encoded blobs keyed by
address), the initial delegate addresses and `initRounds`. -/
structure GenesisAsset where
  accounts : List (Bytes × Bytes)
  initDelegates : List Bytes
  initRounds : Nat
deriving DecidableEq, Repr

/-- The genesis block (`GenesisBlock` in `./types`). -/
structure GenesisBlock where
  header : BlockHeader
  asset : GenesisAsset
deriving DecidableEq, Repr

/-- The cast `(genesisBlock as unknown) as Block` used by the source. -/
def GenesisBlock.toBlock (g : GenesisBlock) : Block :=
  { header := g.header }

/-- A value held by the consensus key/value sub-store.  The serialization
service is external and opaque (spec section 2); its only structured use in
the claims is the persisted validator set, so the codec is modelled as a
tagged value: `codec.encode(validatorsSchema, ...)` builds the `validators`
variant and decoding pattern-matches it back. -/
inductive ConsensusValue where
  | validators (vs : List Validator)
  | raw (b : Bytes)
deriving DecidableEq, Repr

/-- `codec.decode(validatorsSchema, buffer)` on a buffer produced by
`codec.encode(validatorsSchema, ...)`; any other buffer is garbage the code
never feeds it, modelled as the empty set. -/
def decodeValidators : ConsensusValue → List Validator
  | .validators vs => vs
  | .raw _ => []

/-- One state-diff record, as persisted by `saveBlock` (spec 4.3: "Diff
entries recorded per mutation enable exact reversal during `removeBlock`").
It remembers which block it belongs to and how many account / consensus
overlay entries the commit prepended to the persisted store. -/
structure Diff where
  blockID : Bytes
  numAccounts : Nat
  numConsensus : Nat
deriving DecidableEq, Repr

/-- Modelled from the spec: the Persistent Store plus Data Access state
(`./data_access` is not in the source sample).  Blocks are prepended on save;
accounts and consensus entries are association lists whose first match wins,
so committing a diff prepends the dirty entries and reverting drops them. -/
structure Storage where
  blocks : List Block
  accounts : List (Bytes × Bytes)
  consensus : List (String × ConsensusValue)
  diffs : List Diff
  tempBlocks : List Block
deriving DecidableEq, Repr

/-- Modelled from the spec: the transactional overlay (`./state_store` is not
in the source sample).  It carries the seeded header window and last reward
(spec 4.1 `newStateStore`) plus the dirty account / consensus entries
collected for commit (spec 4.3). -/
structure StateStore where
  networkIdentifier : Bytes
  lastBlockHeaders : List BlockHeader
  lastBlockReward : Nat
  accountUpdates : List (Bytes × Bytes)
  consensusUpdates : List (String × ConsensusValue)
deriving DecidableEq, Repr

/-- `CONSENSUS_STATE_VALIDATORS_KEY` from `./constants`. -/
def CONSENSUS_STATE_VALIDATORS_KEY : String := "validators"

/-- Events emitted on the chain's `EventEmitter`. -/
inductive ChainEvent where
  | newBlock (blockID : Bytes) (updatedAccounts : List (Bytes × Bytes))
  | deleteBlock (blockID : Bytes) (revertedAccounts : List (Bytes × Bytes))
  | validatorsChanged (vs : List Validator)
deriving DecidableEq, Repr

/-- The reward-schedule constants (`BlockRewardOptions` in `./types`):
`_blockRewardArgs` of the `Chain` constructor. -/
structure BlockRewardOptions where
  milestones : List Nat
  rewardOffset : Nat
  distance : Nat
deriving DecidableEq, Repr

/-- The chain engine's state: configuration constants plus the mutable
`_lastBlock`, `_numberOfValidators`, storage, header cache and emitted
events. -/
structure Chain where
  genesisBlock : GenesisBlock
  rewardArgs : BlockRewardOptions
  genesisTimestamp : Nat
  blockTime : Nat
  networkIdentifier : Bytes
  numberOfValidators : Nat
  lastBlock : Block
  storage : Storage
  headerCache : List BlockHeader
  events : List ChainEvent
deriving DecidableEq, Repr

/-- `DataAccess.getBlockByID`: first stored block with the given id, `none`
standing for the `NotFoundError` the source catches. -/
def getBlockByID (st : Storage) (id : Bytes) : Option Block :=
  st.blocks.find? (fun b => b.header.id = id)

/-- Read a key of the persisted consensus sub-store
(`DataAccess.getConsensusState`). -/
def getConsensusState (st : Storage) (key : String) : Option ConsensusValue :=
  (st.consensus.find? (fun kv => kv.1 = key)).map (·.2)

/-- `stateStore.consensus.get`: overlay first, then read-through to the
persisted store (spec 4.3). -/
def consensusGet (ss : StateStore) (st : Storage) (key : String) : Option ConsensusValue :=
  match ss.consensusUpdates.find? (fun kv => kv.1 = key) with
  | some kv => some kv.2
  | none => getConsensusState st key

/-- `stateStore.consensus.set`: record a dirty consensus entry in the
overlay; the newest entry shadows older ones. -/
def consensusSet (ss : StateStore) (key : String) (v : ConsensusValue) : StateStore :=
  { ss with consensusUpdates := (key, v) :: ss.consensusUpdates }

/-- Modelled from the spec: `calculateDefaultReward` (`./block_reward`, not in
the source sample).  "Before `rewardOffset`, reward is 0; each
`rewardDistance` blocks after offset, reward steps down to the next milestone
in the provided descending list; after the list is exhausted, reward holds at
the last milestone value" (spec 4.1). -/
def calculateDefaultReward (height : Nat) (args : BlockRewardOptions) : Nat :=
  if height < args.rewardOffset then 0
  else
    args.milestones.getD
      (min ((height - args.rewardOffset) / args.distance) (args.milestones.length - 1)) 0

/-- `Chain.calculateDefaultReward`. -/
def Chain.calculateDefaultReward (c : Chain) (height : Nat) : Nat :=
  LiskChain.calculateDefaultReward height c.rewardArgs

/-- `Chain.calculateExpectedReward`.  The seed-reveal check
(`isValidSeedReveal` from `./verify`, not in the source sample) is abstracted
as the oracle argument `seedOk`, applied exactly as the source applies the
imported function: to the header, the state store and the validator count. -/
def Chain.calculateExpectedReward (c : Chain)
    (seedOk : BlockHeader → StateStore → Nat → Bool)
    (blockHeader : BlockHeader) (stateStore : StateStore) : Nat :=
  let defaultReward := c.calculateDefaultReward blockHeader.height
  let isValid := seedOk blockHeader stateStore c.numberOfValidators
  if isValid then defaultReward else 0

/-- Modelled from the spec: the Slot Calculator (`./slots`, not in the source
sample) "maps wall-clock time to discrete block slots ... given genesis
timestamp and block interval" (spec section 2). -/
def Chain.getSlotNumber (c : Chain) (timestamp : Nat) : Nat :=
  (timestamp - c.genesisTimestamp) / c.blockTime

/-- `Chain.getValidators`: decode the persisted validator set, or `[]` when
the consensus key is absent. -/
def Chain.getValidators (c : Chain) : List Validator :=
  match getConsensusState c.storage CONSENSUS_STATE_VALIDATORS_KEY with
  | none => []
  | some v => decodeValidators v

/-- `Chain.getValidator`: `validators[slotNumber(timestamp) % validators.length]`.
In the total embedding the indexing returns an `Option`; the out-of-range
case (`undefined` in the source) is `none`. -/
def Chain.getValidator (c : Chain) (timestamp : Nat) : Option Validator :=
  let validators := c.getValidators
  let currentSlot := c.getSlotNumber timestamp
  validators[currentSlot % validators.length]?

/-- `Chain._getLastBootstrapHeight`:
`numberOfValidators * initRounds + genesisHeight`. -/
def Chain.getLastBootstrapHeight (c : Chain) : Nat :=
  c.numberOfValidators * c.genesisBlock.asset.initRounds + c.genesisBlock.header.height

/-- Ordering of block headers by height, used to return height-range reads
earliest-first. -/
def heightLE (a b : BlockHeader) : Prop := a.height ≤ b.height

instance : DecidableRel heightLE := fun a b => Nat.decLe a.height b.height

instance : IsTotal BlockHeader heightLE := ⟨fun a b => Nat.le_total a.height b.height⟩

instance : IsTrans BlockHeader heightLE := ⟨fun _ _ _ => Nat.le_trans⟩

/-- Modelled from the spec: `DataAccess.getBlockHeadersByHeightBetween`
(`./data_access` is not in the source sample): the stored headers whose
heights lie in `[fromHeight, toHeight]`, earliest first (the spec reads the
window's first element as "the earliest header in that window", spec 4.1). -/
def getBlockHeadersByHeightBetween (st : Storage) (fromHeight toHeight : Nat) :
    List BlockHeader :=
  ((st.blocks.map (·.header)).filter
      (fun h => fromHeight ≤ h.height && h.height ≤ toHeight)).insertionSort heightLE

/-- `Chain.newStateStore`.  JavaScript's
`Math.max(0, h - 3v - skip)` is natural-number truncated subtraction, and
`Math.max(h - skip, 1)` is `max (h - skip) 1`. -/
def Chain.newStateStore (c : Chain) (skipLastHeights : Nat := 0) : StateStore :=
  let fromHeight := c.lastBlock.header.height - c.numberOfValidators * 3 - skipLastHeights
  let toHeight := max (c.lastBlock.header.height - skipLastHeights) 1
  let lastBlockHeaders := getBlockHeadersByHeightBetween c.storage fromHeight toHeight
  let lastBlockReward :=
    c.calculateDefaultReward ((lastBlockHeaders.head?.map (·.height)).getD 1)
  { networkIdentifier := c.networkIdentifier
    lastBlockHeaders := lastBlockHeaders
    lastBlockReward := lastBlockReward
    accountUpdates := []
    consensusUpdates := [] }

/-- Modelled from the spec: `DataAccess.saveBlock` (`./data_access` is not in
the source sample) "atomically persists the block, commits the StateStore
diff" (spec 4.1): the block is prepended, the dirty overlay entries are
prepended to the persisted association lists, and a diff record remembering
their counts is pushed so `deleteBlock` can reverse the commit exactly
(spec 4.3). -/
def dataAccessSaveBlock (st : Storage) (block : Block) (ss : StateStore)
    (_finalizedHeight : Nat) (removeFromTempTable : Bool) : Storage :=
  { blocks := block :: st.blocks
    accounts := ss.accountUpdates ++ st.accounts
    consensus := ss.consensusUpdates ++ st.consensus
    diffs := ⟨block.header.id, ss.accountUpdates.length, ss.consensusUpdates.length⟩ :: st.diffs
    tempBlocks :=
      if removeFromTempTable then
        st.tempBlocks.filter (fun tb => tb.header.id ≠ block.header.id)
      else st.tempBlocks }

/-- Modelled from the spec: `DataAccess.deleteBlock` (`./data_access` is not
in the source sample) "reverts the persisted diff" (spec 4.1): the topmost
diff record must belong to the removed block, the entries it committed are
dropped, and the block is erased from the persisted blocks.  Returns the
reverted ("updated") account entries alongside the new storage; `none` is the
fatal storage failure. -/
def dataAccessDeleteBlock (st : Storage) (block : Block) (saveTempBlock : Bool) :
    Option (Storage × List (Bytes × Bytes)) :=
  match st.diffs with
  | [] => none
  | d :: rest =>
    if d.blockID = block.header.id then
      some
        ({ blocks := st.blocks.eraseP (fun bl => bl.header.id = block.header.id)
           accounts := st.accounts.drop d.numAccounts
           consensus := st.consensus.drop d.numConsensus
           diffs := rest
           tempBlocks := if saveTempBlock then block :: st.tempBlocks else st.tempBlocks },
         st.accounts.take d.numAccounts)
    else none

/-- `Chain.saveBlock`: persist the block and diff, append the header to the
cache (`dataAccess.addBlockHeader`), advance `_lastBlock`, and emit
`EVENT_NEW_BLOCK` with the updated accounts (`stateStore.account.getUpdated()`). -/
def Chain.saveBlock (c : Chain) (block : Block) (stateStore : StateStore)
    (finalizedHeight : Nat) (removeFromTempTable : Bool := false) : Chain :=
  { c with
    storage := dataAccessSaveBlock c.storage block stateStore finalizedHeight removeFromTempTable
    headerCache := c.headerCache ++ [block.header]
    lastBlock := block
    events := c.events ++ [ChainEvent.newBlock block.header.id stateStore.accountUpdates] }

/-- `Chain.removeBlock`.  Mirrors the source's order: the genesis-version
guard, then the `getBlockByID(previousBlockID)` lookup, then the diff revert,
the cache removal, the tip update and the `EVENT_DELETE_BLOCK` emission.  The
returned pair is the chain state after the call together with the error, if
any, that the call threw; an error is thrown before any mutation (the model's
`deleteBlock` is atomic, as spec section 5 requires: "runs to completion or
fails fatally ..., never partially"). -/
def Chain.removeBlock (c : Chain) (block : Block) (_stateStore : StateStore)
    (saveTempBlock : Bool := false) : Chain × Option String :=
  if block.header.version = c.genesisBlock.header.version then
    (c, some "Cannot delete genesis block")
  else
    match getBlockByID c.storage block.header.previousBlockID with
    | none => (c, some "PreviousBlock is null")
    | some secondLastBlock =>
      match dataAccessDeleteBlock c.storage block saveTempBlock with
      | none => (c, some "Failed to revert the persisted diff")
      | some (storage', updatedAccounts) =>
        ({ c with
            storage := storage'
            headerCache := c.headerCache.eraseP (fun h => h.id = block.header.id)
            lastBlock := secondLastBlock
            events := c.events ++ [ChainEvent.deleteBlock block.header.id updatedAccounts] },
         none)

/-- `Chain.setValidators`.  Returns the chain (events), the state store and
the thrown error, if any. -/
def Chain.setValidators (c : Chain) (validators : List ValidatorCandidate)
    (stateStore : StateStore) (blockHeader : BlockHeader) :
    Chain × StateStore × Option String :=
  if c.getLastBootstrapHeight > blockHeader.height then
    -- logged no-op: rotation is frozen during the bootstrap period
    (c, stateStore, none)
  else
    match consensusGet stateStore c.storage CONSENSUS_STATE_VALIDATORS_KEY with
    | none => (c, stateStore, some "Previous validator set must exist")
    | some validatorsBuffer =>
      let previousValidators := decodeValidators validatorsBuffer
      let nextValidatorSet := validators.map (fun nextValidator =>
        { address := nextValidator.address
          isConsensusParticipant := nextValidator.isConsensusParticipant
          minActiveHeight :=
            match previousValidators.find? (fun pv => pv.address = nextValidator.address) with
            | some previousInfo => previousInfo.minActiveHeight
            | none => blockHeader.height + 1 : Validator })
      ({ c with events := c.events ++ [ChainEvent.validatorsChanged nextValidatorSet] },
       consensusSet stateStore CONSENSUS_STATE_VALIDATORS_KEY (.validators nextValidatorSet),
       none)

/-! ## Proof-of-misbehavior transaction asset

The DPoS `PomTransactionAsset` implementation
(`framework/src/modules/dpos/transaction_assets/pom_transaction_asset.ts`) is
not in the source sample — only its unit tests are
(`framework/test/unit/modules/dpos/transaction_assets/pom_transaction_asset.spec.ts`).
The `apply` step is therefore modelled from spec section 4.5 and the tests'
observable behavior. -/

/-- The DPoS delegate sub-state of the accused account. -/
structure DelegateState where
  username : String
  pomHeights : List Nat
  isBanned : Bool
deriving DecidableEq, Repr

/-- Modelled from the spec: everything `PomTransactionAsset.apply` reads.
Signature verification and the token-module reducers are external, so the
signature verdicts and the accused's balance / minimum remaining balance
enter as oracle fields. -/
structure PomContext where
  senderAddress : Bytes
  delegateAddress : Bytes
  header1Height : Nat
  header2Height : Nat
  header1SigValid : Bool
  header2SigValid : Bool
  lastBlockHeight : Nat
  lastBlockReward : Int
  delegateBalance : Int
  minRemainingBalance : Int
  delegate : DelegateState
deriving DecidableEq, Repr

/-- The observable effect of a successful proof-of-misbehavior application:
the accused's updated delegate state and the amount credited to the
reporter. -/
structure PomResult where
  delegate : DelegateState
  creditedAmount : Int
deriving DecidableEq, Repr

/-- Modelled from the spec: `PomTransactionAsset.apply` (spec 4.5).  Checks,
in the tests' order: both heights within `260000` of the current height, both
signatures, accused is a delegate, not already banned, not already punished
relative to `header1.height`; then appends `currentHeight + 1` to the strike
list, sets the banned flag when the list reaches 5 entries, and credits the
reporter `min(lastBlockReward, accusedBalance − minRemainingBalance)` floored
at 0, or 0 when reporter and accused coincide. -/
def pomApply (ctx : PomContext) : Except String PomResult :=
  let currentHeight := ctx.lastBlockHeight
  if ¬ Nat.dist ctx.header1Height currentHeight < 260000 then
    .error "Difference between header1.height and current height must be less than 260000."
  else if ¬ Nat.dist ctx.header2Height currentHeight < 260000 then
    .error "Difference between header2.height and current height must be less than 260000."
  else if ¬ ctx.header1SigValid then .error "Invalid block signature for header 1."
  else if ¬ ctx.header2SigValid then .error "Invalid block signature for header 2."
  else if ctx.delegate.username = "" then .error "Account is not a delegate"
  else if ctx.delegate.isBanned then
    .error "Cannot apply proof-of-misbehavior. Delegate is already banned."
  else if ctx.delegate.pomHeights.any (fun ph => ctx.header1Height < ph) then
    .error "Cannot apply proof-of-misbehavior. Delegate is already punished."
  else
    let newPomHeights := ctx.delegate.pomHeights ++ [currentHeight + 1]
    let newIsBanned := if newPomHeights.length = 5 then true else ctx.delegate.isBanned
    let subtractableBalance := max (ctx.delegateBalance - ctx.minRemainingBalance) 0
    let reward := min ctx.lastBlockReward subtractableBalance
    let creditedAmount := if ctx.senderAddress = ctx.delegateAddress then 0 else reward
    .ok
      { delegate :=
          { ctx.delegate with pomHeights := newPomHeights, isBanned := newIsBanned }
        creditedAmount := creditedAmount }

/-! ## Spec-side description used for the refinement statement about
`setValidators` -/

/-- The specification's wording of the entry written for one candidate:
"preserves its existing `minActiveHeight` if it was already present in the
previous set, else assigns `header.height + 1`" (spec 4.1); `nextHeight` is
the assigned `header.height + 1`. -/
def specNextValidator (prev : List Validator) (cand : ValidatorCandidate)
    (nextHeight : Nat) : Validator :=
  { address := cand.address
    isConsensusParticipant := cand.isConsensusParticipant
    minActiveHeight :=
      (prev.find? (fun pv => pv.address = cand.address)).elim nextHeight
        (·.minActiveHeight) }

/-! ## Concrete values used by the witnesses and counterexamples -/

/-- The reward schedule of the spec's scenario (section 8):
`rewardOffset = 2160`, `rewardDistance = 3000000`, descending milestones. -/
def exRewardArgs : BlockRewardOptions :=
  { milestones := [500000000, 400000000, 300000000, 200000000, 100000000]
    rewardOffset := 2160
    distance := 3000000 }

/-- A genesis block with version 0 and height 0. -/
def exGenesis : GenesisBlock :=
  { header :=
      { version := 0, height := 0, previousBlockID := [], timestamp := 0
        generatorPublicKey := [], id := [0] }
    asset := { accounts := [], initDelegates := [[7]], initRounds := 3 } }

/-- The header of the stored tip block `T` used by the save/remove witness. -/
def exHdrT : BlockHeader :=
  { version := 2, height := 1, previousBlockID := [0], timestamp := 10
    generatorPublicKey := [7], id := [1] }

/-- The stored tip block `T`. -/
def exBlockT : Block := { header := exHdrT }

/-- The header of the freshly applied block `B` (child of `T`). -/
def exHdrB : BlockHeader :=
  { version := 2, height := 2, previousBlockID := [1], timestamp := 20
    generatorPublicKey := [7], id := [2] }

/-- The freshly applied block `B`. -/
def exBlockB : Block := { header := exHdrB }

/-- Storage holding the tip `T`, one account blob and a persisted validator
set. -/
def exStorage : Storage :=
  { blocks := [exBlockT]
    accounts := [([5], [9])]
    consensus := [(CONSENSUS_STATE_VALIDATORS_KEY, .validators [⟨[7], 1, true⟩])]
    diffs := []
    tempBlocks := [] }

/-- A chain whose tip is `T`. -/
def exChain : Chain :=
  { genesisBlock := exGenesis
    rewardArgs := exRewardArgs
    genesisTimestamp := 0
    blockTime := 10
    networkIdentifier := [9]
    numberOfValidators := 1
    lastBlock := exBlockT
    storage := exStorage
    headerCache := [exHdrT]
    events := [] }

/-- An empty overlay over `exChain`. -/
def exEmptyStore : StateStore :=
  { networkIdentifier := [9], lastBlockHeaders := [exHdrT], lastBlockReward := 0
    accountUpdates := [], consensusUpdates := [] }

/-- The overlay produced while applying `B`: one dirty account and a dirty
validator set. -/
def exStoreB : StateStore :=
  { networkIdentifier := [9]
    lastBlockHeaders := [exHdrT]
    lastBlockReward := 0
    accountUpdates := [([5], [8]), ([6], [4])]
    consensusUpdates := [(CONSENSUS_STATE_VALIDATORS_KEY, .validators [⟨[7], 1, false⟩])] }

/-- A block that is not the genesis block (different id and height) but
shares the genesis header version 0. -/
def exGenesisVersionBlock : Block :=
  { header :=
      { version := 0, height := 5, previousBlockID := [1], timestamp := 50
        generatorPublicKey := [7], id := [3] } }

/-- A block header at height 1 stored alongside the tip of `exChain7`. -/
def exHdr1 : BlockHeader :=
  { version := 2, height := 1, previousBlockID := [0], timestamp := 10
    generatorPublicKey := [7], id := [11] }

/-- The tip of `exChain7`, at height 10. -/
def exHdr10 : BlockHeader :=
  { version := 2, height := 10, previousBlockID := [9], timestamp := 100
    generatorPublicKey := [7], id := [20] }

/-- A chain at height 10 whose storage also holds the height-1 block; with
`skipLastHeights = 10` the code's window ends at `max(10 - 10, 1) = 1` and
captures the height-1 header, while the claimed window ends at `10 - 10 = 0`. -/
def exChain7 : Chain :=
  { genesisBlock := exGenesis
    rewardArgs := exRewardArgs
    genesisTimestamp := 0
    blockTime := 10
    networkIdentifier := [9]
    numberOfValidators := 1
    lastBlock := { header := exHdr10 }
    storage :=
      { blocks := [{ header := exHdr10 }, { header := exHdr1 }]
        accounts := []
        consensus := [(CONSENSUS_STATE_VALIDATORS_KEY, .validators [⟨[7], 1, true⟩])]
        diffs := []
        tempBlocks := [] }
    headerCache := [exHdr10]
    events := [] }

/-- A block header at height 40, above `exChain`'s bootstrap height
(`1 * 3 + 0 = 3`). -/
def exHdr40 : BlockHeader :=
  { version := 2, height := 40, previousBlockID := [1], timestamp := 400
    generatorPublicKey := [7], id := [40] }

/-- A block header at height 2, below `exChain`'s bootstrap height 3. -/
def exHdr2 : BlockHeader :=
  { version := 2, height := 2, previousBlockID := [1], timestamp := 20
    generatorPublicKey := [7], id := [12] }

/-- Candidates for the `setValidators` witnesses: one carried-over validator
and one new validator. -/
def exCandidates : List ValidatorCandidate :=
  [⟨[7], true⟩, ⟨[8], false⟩]

/-- An overlay whose consensus sub-store holds no validator-set entry, over a
storage that holds none either. -/
def exChainNoValidators : Chain :=
  { exChain with storage := { exStorage with consensus := [] } }

/-- A successfully applying proof-of-misbehavior context: distinct reporter
and accused, both header heights within range, valid signatures, an unbanned
delegate with four prior strikes. -/
def exPomCtx : PomContext :=
  { senderAddress := [1]
    delegateAddress := [2]
    header1Height := 100
    header2Height := 110
    header1SigValid := true
    header2SigValid := true
    lastBlockHeight := 120
    lastBlockReward := 5
    delegateBalance := 100
    minRemainingBalance := 2
    delegate := { username := "d", pomHeights := [10, 20, 30, 40], isBanned := false } }

/-- The result `pomApply` produces on `exPomCtx`: a fifth strike at height
121, the ban flag set, and the full last-block reward credited. -/
def exPomRes : PomResult :=
  { delegate := { username := "d", pomHeights := [10, 20, 30, 40, 121], isBanned := true }
    creditedAmount := 5 }

/-- The previous persisted validator set of `exChain` (address `[7]` with
`minActiveHeight = 1`). -/
def exPrev : List Validator := [⟨[7], 1, true⟩]

/-! ## Theorems -/

/-- C2: for every chain state, `removeBlock` called with the genesis block
fails with "Cannot delete genesis block", and the chain state — tip, storage
and header cache — is returned unchanged, with no event emitted. -/
theorem removeBlock_genesis_always_fails (c : Chain) (ss : StateStore) (stb : Bool) :
    c.removeBlock c.genesisBlock.toBlock ss stb = (c, some "Cannot delete genesis block") := by
  simp [Chain.removeBlock, GenesisBlock.toBlock]

/-- C8: the genesis guard of `removeBlock` compares header versions only:
every block whose header version equals the genesis version — genesis block
or not — fails with "Cannot delete genesis block" and leaves the chain state
untouched. -/
theorem removeBlock_version_guard (c : Chain) (b : Block) (ss : StateStore) (stb : Bool)
    (hver : b.header.version = c.genesisBlock.header.version) :
    c.removeBlock b ss stb = (c, some "Cannot delete genesis block") := by
  simp [Chain.removeBlock, hver]

/-- Witness for C8: a height-5 block that is not the genesis block but
shares its version is rejected by the guard. -/
theorem removeBlock_version_guard_witness :
    exChain.removeBlock exGenesisVersionBlock exEmptyStore true =
      (exChain, some "Cannot delete genesis block") :=
  removeBlock_version_guard exChain exGenesisVersionBlock exEmptyStore true rfl

/-- C4: `calculateExpectedReward` returns the default reward of the header's
height when the seed-reveal check for the generator passes, and exactly 0
when it fails. -/
theorem calculateExpectedReward_spec (c : Chain)
    (seedOk : BlockHeader → StateStore → Nat → Bool)
    (hdr : BlockHeader) (ss : StateStore) :
    (seedOk hdr ss c.numberOfValidators = true →
       c.calculateExpectedReward seedOk hdr ss = c.calculateDefaultReward hdr.height) ∧
    (seedOk hdr ss c.numberOfValidators = false →
       c.calculateExpectedReward seedOk hdr ss = 0) := by
  constructor <;> intro h <;> simp [Chain.calculateExpectedReward, h]

/-- Witness for C4 at a passing and at a failing seed-reveal oracle. -/
theorem calculateExpectedReward_spec_witness :
    exChain.calculateExpectedReward (fun _ _ _ => true) exHdrB exEmptyStore =
        exChain.calculateDefaultReward exHdrB.height ∧
    exChain.calculateExpectedReward (fun _ _ _ => false) exHdrB exEmptyStore = 0 :=
  ⟨(calculateExpectedReward_spec exChain (fun _ _ _ => true) exHdrB exEmptyStore).1 rfl,
   (calculateExpectedReward_spec exChain (fun _ _ _ => false) exHdrB exEmptyStore).2 rfl⟩

/-- C10: at or above the bootstrap height, if neither the overlay nor the
persisted consensus sub-store holds a validator-set entry, `setValidators`
fails with "Previous validator set must exist" and changes nothing: chain
state and overlay are returned as they were, so no set is written and no
`ValidatorsChanged` is emitted. -/
theorem setValidators_missing_previous_set (c : Chain)
    (cands : List ValidatorCandidate) (ss : StateStore) (hdr : BlockHeader)
    (hheight : ¬ c.getLastBootstrapHeight > hdr.height)
    (hmissing : consensusGet ss c.storage CONSENSUS_STATE_VALIDATORS_KEY = none) :
    c.setValidators cands ss hdr = (c, ss, some "Previous validator set must exist") := by
  simp [Chain.setValidators, hheight, hmissing]

/-- Witness for C10: a chain with no persisted validator set and an empty
overlay, at height 40 (bootstrap height is 3). -/
theorem setValidators_missing_previous_set_witness :
    exChainNoValidators.setValidators exCandidates exEmptyStore exHdr40 =
      (exChainNoValidators, exEmptyStore, some "Previous validator set must exist") :=
  setValidators_missing_previous_set exChainNoValidators exCandidates exEmptyStore exHdr40
    (by decide) (by decide)

/-- C9: `getValidator` yields no value exactly when the persisted validator
set is empty: with an empty set the index `slotNumber % 0` is out of bounds
(the total embedding returns `none`), and with a non-empty set
`slotNumber % length` is always in bounds. -/
theorem getValidator_none_iff_no_validators (c : Chain) (ts : Nat) :
    c.getValidator ts = none ↔ c.getValidators = [] := by
  unfold Chain.getValidator
  constructor
  · intro h
    by_contra hne
    have hlen : 0 < c.getValidators.length := List.length_pos.mpr hne
    have hlt : c.getSlotNumber ts % c.getValidators.length < c.getValidators.length :=
      Nat.mod_lt _ hlen
    rw [List.getElem?_eq_getElem hlt] at h
    exact Option.noConfusion h
  · intro h
    simp [h]

/-- C5: below the bootstrap height `setValidators` is a pure no-op — nothing
written, no event, no error; at or above it, with a previous persisted set
`prev` readable under the validators key, it writes (to the overlay, under
the validators key) the candidate list where each entry keeps its previous
`minActiveHeight` when its address was already present and is assigned
`header.height + 1` otherwise, and emits `ValidatorsChanged` with that set. -/
theorem setValidators_spec (c : Chain) (cands : List ValidatorCandidate)
    (ss : StateStore) (hdr : BlockHeader) (prev : List Validator) :
    (c.getLastBootstrapHeight > hdr.height →
       c.setValidators cands ss hdr = (c, ss, none)) ∧
    (¬ c.getLastBootstrapHeight > hdr.height →
     consensusGet ss c.storage CONSENSUS_STATE_VALIDATORS_KEY =
         some (.validators prev) →
       c.setValidators cands ss hdr =
         ({ c with events := c.events ++
              [ChainEvent.validatorsChanged
                (cands.map (fun cand => specNextValidator prev cand (hdr.height + 1)))] },
          { ss with consensusUpdates :=
              (CONSENSUS_STATE_VALIDATORS_KEY,
                ConsensusValue.validators
                  (cands.map (fun cand => specNextValidator prev cand (hdr.height + 1))))
                :: ss.consensusUpdates },
          none)) := by
  constructor
  · intro h
    simp [Chain.setValidators, h]
  · intro h1 h2
    have hmap : ∀ cand : ValidatorCandidate,
        ({ address := cand.address
           isConsensusParticipant := cand.isConsensusParticipant
           minActiveHeight :=
             match prev.find? (fun pv => pv.address = cand.address) with
             | some previousInfo => previousInfo.minActiveHeight
             | none => hdr.height + 1 : Validator }) =
          specNextValidator prev cand (hdr.height + 1) := by
      intro cand
      unfold specNextValidator
      cases prev.find? (fun pv => pv.address = cand.address) <;> rfl
    simp [Chain.setValidators, h1, h2, decodeValidators, consensusSet, hmap]

/-- Witness for C5: the no-op branch at height 2 (bootstrap height 3) and the
writing branch at height 40, where candidate `[7]` keeps `minActiveHeight 1`
and the new candidate `[8]` gets `40 + 1`. -/
theorem setValidators_spec_witness :
    exChain.setValidators exCandidates exEmptyStore exHdr2 =
        (exChain, exEmptyStore, none) ∧
    exChain.setValidators exCandidates exEmptyStore exHdr40 =
        ({ exChain with events := exChain.events ++
             [ChainEvent.validatorsChanged
               (exCandidates.map (fun cand => specNextValidator exPrev cand (exHdr40.height + 1)))] },
         { exEmptyStore with consensusUpdates :=
             [(CONSENSUS_STATE_VALIDATORS_KEY,
               ConsensusValue.validators
                 (exCandidates.map (fun cand => specNextValidator exPrev cand (exHdr40.height + 1))))] },
         none) :=
  ⟨(setValidators_spec exChain exCandidates exEmptyStore exHdr2 exPrev).1 (by decide),
   (setValidators_spec exChain exCandidates exEmptyStore exHdr40 exPrev).2 (by decide) (by decide)⟩

/-- On a non-increasing list, `getD` at a later in-range index is no larger. -/
theorem getD_anti_of_sorted (l : List Nat) (hs : l.Sorted (· ≥ ·)) (i j : Nat)
    (hij : i ≤ j) (hj : j < l.length) : l.getD j 0 ≤ l.getD i 0 := by
  have hi : i < l.length := lt_of_le_of_lt hij hj
  rw [l.getD_eq_getElem 0 hj, l.getD_eq_getElem 0 hi]
  rcases lt_or_eq_of_le hij with hlt | rfl
  · exact List.pairwise_iff_getElem.mp hs i j hi hj hlt
  · exact le_refl _

/-- C3 (amended): with a positive milestone distance and a descending
milestone list, `calculateDefaultReward` is monotonically non-increasing on
heights at or above `rewardOffset` (below the offset it is 0, which may lie
below later rewards, so monotonicity cannot start earlier), it is exactly 0
strictly below `rewardOffset`, it is constant between consecutive milestone
boundaries, and once the list is exhausted it stays at the last milestone
value. -/
theorem calculateDefaultReward_schedule (args : BlockRewardOptions)
    (hdist : 0 < args.distance)
    (hdesc : args.milestones.Sorted (· ≥ ·)) :
    (∀ h1 h2, args.rewardOffset ≤ h1 → h1 ≤ h2 →
       calculateDefaultReward h2 args ≤ calculateDefaultReward h1 args) ∧
    (∀ h, h < args.rewardOffset → calculateDefaultReward h args = 0) ∧
    (∀ k h, args.rewardOffset + k * args.distance ≤ h →
       h < args.rewardOffset + (k + 1) * args.distance →
       calculateDefaultReward h args =
         calculateDefaultReward (args.rewardOffset + k * args.distance) args) ∧
    (∀ h, args.rewardOffset + (args.milestones.length - 1) * args.distance ≤ h →
       calculateDefaultReward h args =
         args.milestones.getD (args.milestones.length - 1) 0) := by
  refine ⟨?_, ?_, ?_, ?_⟩
  · intro h1 h2 hoff hle
    unfold calculateDefaultReward
    rw [if_neg (not_lt.mpr hoff), if_neg (not_lt.mpr (hoff.trans hle))]
    rcases hml : args.milestones with _ | ⟨m, ms⟩
    · simp
    · rw [← hml]
      apply getD_anti_of_sorted _ hdesc
      · exact min_le_min (Nat.div_le_div_right (Nat.sub_le_sub_right hle _)) le_rfl
      · have hpos : 0 < args.milestones.length := by rw [hml]; simp
        exact lt_of_le_of_lt (min_le_right _ _) (Nat.sub_lt hpos Nat.one_pos)
  · intro h hlt
    unfold calculateDefaultReward
    rw [if_pos hlt]
  · intro k h hlo hhi
    have hub : args.rewardOffset ≤ h := le_trans (Nat.le_add_right _ _) hlo
    unfold calculateDefaultReward
    rw [if_neg (not_lt.mpr hub), if_neg (not_lt.mpr (Nat.le_add_right _ _))]
    have hq1 : (h - args.rewardOffset) / args.distance = k := by
      have hlo1 : k * args.distance ≤ h - args.rewardOffset := by omega
      have hhi1 : h - args.rewardOffset < (k + 1) * args.distance := by omega
      exact Nat.div_eq_of_lt_le hlo1 hhi1
    have hq2 : (args.rewardOffset + k * args.distance - args.rewardOffset) / args.distance
        = k := by
      rw [Nat.add_sub_cancel_left, Nat.mul_div_cancel _ hdist]
    rw [hq1, hq2]
  · intro h hge
    have hub : args.rewardOffset ≤ h := le_trans (Nat.le_add_right _ _) hge
    unfold calculateDefaultReward
    rw [if_neg (not_lt.mpr hub)]
    have hidx : args.milestones.length - 1 ≤ (h - args.rewardOffset) / args.distance := by
      have hmul : (args.milestones.length - 1) * args.distance ≤ h - args.rewardOffset := by
        omega
      calc args.milestones.length - 1
          = (args.milestones.length - 1) * args.distance / args.distance := by
            rw [Nat.mul_div_cancel _ hdist]
        _ ≤ (h - args.rewardOffset) / args.distance := Nat.div_le_div_right hmul
    rw [min_eq_right hidx]

/-- Counterexample for C3 as stated: with the spec's own scenario schedule
(`rewardOffset = 2160`, milestones starting at `500000000`), height 100 gets
reward 0 and height 2161 gets reward 500000000, so on the pair
`100 ≤ 2161` the reward is not monotonically non-increasing. -/
theorem calculateDefaultReward_not_monotone :
    (100 : Nat) ≤ 2161 ∧
    ¬ calculateDefaultReward 2161 exRewardArgs ≤ calculateDefaultReward 100 exRewardArgs := by
  decide

/-- Witness for C3 (amended) on the scenario schedule: reward at height 2165
is no larger than at height 2160. -/
theorem calculateDefaultReward_schedule_witness :
    calculateDefaultReward 2165 exRewardArgs ≤ calculateDefaultReward 2160 exRewardArgs :=
  (calculateDefaultReward_schedule exRewardArgs (by decide) (by decide)).1 2160 2165
    (by decide) (by decide)

/-- Membership in a height-range read: exactly the stored headers whose
height lies in the requested closed range. -/
theorem mem_getBlockHeadersByHeightBetween (st : Storage) (lo hi : Nat)
    (hdr : BlockHeader) :
    hdr ∈ getBlockHeadersByHeightBetween st lo hi ↔
      (hdr ∈ st.blocks.map Block.header ∧ lo ≤ hdr.height ∧ hdr.height ≤ hi) := by
  unfold getBlockHeadersByHeightBetween
  rw [(List.perm_insertionSort heightLE _).mem_iff]
  simp [List.mem_filter, and_assoc]

/-- C7 (amended): the overlay built by `newStateStore(skip)` is seeded with
the stored headers whose heights lie between
`tip.height − 3 × validatorCount − skip` (clamped at 0) and
`max(tip.height − skip, 1)` — the code clamps the upper bound at 1, the
claim's `tip.height − skip` alone is too low when it falls below 1 —
ordered earliest first, with `lastBlockReward` the default reward of the
earliest header in the window, or of height 1 when the window is empty. -/
theorem newStateStore_spec (c : Chain) (skip : Nat) :
    (∀ hdr, hdr ∈ (c.newStateStore skip).lastBlockHeaders ↔
       (hdr ∈ c.storage.blocks.map Block.header ∧
        c.lastBlock.header.height - c.numberOfValidators * 3 - skip ≤ hdr.height ∧
        hdr.height ≤ max (c.lastBlock.header.height - skip) 1)) ∧
    (c.newStateStore skip).lastBlockHeaders.Sorted heightLE ∧
    ((c.newStateStore skip).lastBlockHeaders = [] →
       (c.newStateStore skip).lastBlockReward = c.calculateDefaultReward 1) ∧
    (∀ hd tl, (c.newStateStore skip).lastBlockHeaders = hd :: tl →
       (c.newStateStore skip).lastBlockReward = c.calculateDefaultReward hd.height) := by
  refine ⟨?_, ?_, ?_, ?_⟩
  · intro hdr
    simp only [Chain.newStateStore]
    exact mem_getBlockHeadersByHeightBetween _ _ _ hdr
  · simp only [Chain.newStateStore]
    exact List.sorted_insertionSort heightLE _
  · intro hnil
    simp only [Chain.newStateStore] at hnil ⊢
    rw [hnil]
    rfl
  · intro hd tl hcons
    simp only [Chain.newStateStore] at hcons ⊢
    rw [hcons]
    rfl

/-- Counterexample for C7 as stated: on a chain whose tip has height 10, with
`skipLastHeights = 10`, the code's window upper bound is
`max(10 − 10, 1) = 1`, so the stored height-1 header lands in the seeded
window even though it lies above the claimed bound `tip.height − skip = 0`. -/
theorem newStateStore_window_exceeds_claimed_bound :
    exHdr1 ∈ (exChain7.newStateStore 10).lastBlockHeaders ∧
    exChain7.lastBlock.header.height - 10 < exHdr1.height := by
  decide

/-- Witness for C7 (amended) on `exChain7` with `skip = 10`: the membership
characterization at the height-1 header, and the reward seeded from that
earliest header. -/
theorem newStateStore_spec_witness :
    (exHdr1 ∈ (exChain7.newStateStore 10).lastBlockHeaders ↔
       (exHdr1 ∈ exChain7.storage.blocks.map Block.header ∧
        exChain7.lastBlock.header.height - exChain7.numberOfValidators * 3 - 10 ≤
          exHdr1.height ∧
        exHdr1.height ≤ max (exChain7.lastBlock.header.height - 10) 1)) ∧
    (exChain7.newStateStore 10).lastBlockReward =
      exChain7.calculateDefaultReward exHdr1.height :=
  ⟨(newStateStore_spec exChain7 10).1 exHdr1,
   (newStateStore_spec exChain7 10).2.2.2 exHdr1 [] (by decide)⟩

/-- Reverting the diff recorded by a save restores the persisted blocks,
account and consensus association lists exactly (the temp-block table is the
only part the two flags may leave different). -/
theorem deleteBlock_dataAccessSaveBlock (st : Storage) (b : Block) (ss : StateStore)
    (fh : Nat) (rmTemp stb : Bool) :
    dataAccessDeleteBlock (dataAccessSaveBlock st b ss fh rmTemp) b stb =
      some
        ({ blocks := st.blocks
           accounts := st.accounts
           consensus := st.consensus
           diffs := st.diffs
           tempBlocks :=
             if stb then
               b :: (if rmTemp then
                 st.tempBlocks.filter (fun tb => tb.header.id ≠ b.header.id)
               else st.tempBlocks)
             else
               (if rmTemp then
                 st.tempBlocks.filter (fun tb => tb.header.id ≠ b.header.id)
               else st.tempBlocks) },
         ss.accountUpdates) := by
  unfold dataAccessSaveBlock dataAccessDeleteBlock
  simp [List.eraseP_cons_of_pos, List.drop_left, List.take_left]

/-- C1: saving a valid child `B` of the tip `T` and then removing `B` with
the same state store restores the pre-`B` state exactly: the call succeeds,
the in-memory tip is again `T` (the block stored at `B.previousBlockID`),
and the persisted account entries and consensus entries (hence the persisted
validator set) are bit-for-bit what they were before the save. -/
theorem removeBlock_after_saveBlock (c : Chain) (B T : Block) (ss : StateStore)
    (fh : Nat) (rmTemp stb : Bool)
    (hver : ¬ B.header.version = c.genesisBlock.header.version)
    (_htip : c.lastBlock = T)
    (hprev : B.header.previousBlockID = T.header.id)
    (hfresh : ¬ B.header.id = T.header.id)
    (hT : getBlockByID c.storage B.header.previousBlockID = some T) :
    ((c.saveBlock B ss fh rmTemp).removeBlock B ss stb).2 = none ∧
    ((c.saveBlock B ss fh rmTemp).removeBlock B ss stb).1.lastBlock = T ∧
    ((c.saveBlock B ss fh rmTemp).removeBlock B ss stb).1.storage.accounts =
      c.storage.accounts ∧
    ((c.saveBlock B ss fh rmTemp).removeBlock B ss stb).1.storage.consensus =
      c.storage.consensus := by
  have hbne : ¬ (B.header.id = B.header.previousBlockID) := by
    rw [hprev]; exact hfresh
  have hfind : getBlockByID (dataAccessSaveBlock c.storage B ss fh rmTemp)
      B.header.previousBlockID = some T := by
    unfold getBlockByID dataAccessSaveBlock
    rw [List.find?_cons_of_neg]
    · exact hT
    · simpa using hbne
  have hdel := deleteBlock_dataAccessSaveBlock c.storage B ss fh rmTemp stb
  simp only [Chain.removeBlock, Chain.saveBlock]
  rw [if_neg hver, hfind, hdel]
  simp

/-- Witness for C1: saving the concrete child block `B` of the stored tip
`T` of `exChain` with a two-account, one-consensus-entry overlay and removing
it again succeeds and restores tip, accounts and consensus entries. -/
theorem removeBlock_after_saveBlock_witness :
    ((exChain.saveBlock exBlockB exStoreB 0 true).removeBlock exBlockB exStoreB false).2 =
        none ∧
    ((exChain.saveBlock exBlockB exStoreB 0 true).removeBlock exBlockB exStoreB
        false).1.lastBlock = exBlockT ∧
    ((exChain.saveBlock exBlockB exStoreB 0 true).removeBlock exBlockB exStoreB
        false).1.storage.accounts = exChain.storage.accounts ∧
    ((exChain.saveBlock exBlockB exStoreB 0 true).removeBlock exBlockB exStoreB
        false).1.storage.consensus = exChain.storage.consensus :=
  removeBlock_after_saveBlock exChain exBlockB exBlockT exStoreB 0 true false
    (by decide) (by decide) (by decide) (by decide) (by decide)

/-- Clamping an amount both by a non-negative cap and at zero commutes:
capping `max b 0` by `r` equals flooring `min r b` at 0 when `0 ≤ r`. -/
theorem min_max_clamp (r b : Int) (hr : 0 ≤ r) : min r (max b 0) = max 0 (min r b) := by
  rcases le_total b 0 with h | h
  · rw [max_eq_right h, min_eq_right hr, min_eq_right (h.trans hr), max_eq_left h]
  · rw [max_eq_left h, max_eq_right (le_min hr h)]

/-- C6: every successfully applied proof-of-misbehavior appends the reporting
height + 1 to the accused's strike list, sets the banned flag exactly when
the list thereby reaches 5 entries, and credits the reporter
`clamp(lastBlockReward, 0, accusedBalance − minRemainingBalance)` — 0 when
the reporter is the accused. -/
theorem pomApply_effect (ctx : PomContext) (res : PomResult)
    (happ : pomApply ctx = .ok res) (hreward : 0 ≤ ctx.lastBlockReward) :
    res.delegate.pomHeights = ctx.delegate.pomHeights ++ [ctx.lastBlockHeight + 1] ∧
    (res.delegate.isBanned = true ↔ res.delegate.pomHeights.length = 5) ∧
    (¬ ctx.senderAddress = ctx.delegateAddress →
       res.creditedAmount =
         max 0 (min ctx.lastBlockReward (ctx.delegateBalance - ctx.minRemainingBalance))) ∧
    (ctx.senderAddress = ctx.delegateAddress → res.creditedAmount = 0) := by
  simp only [pomApply] at happ
  split_ifs at happ
  all_goals rw [Except.ok.injEq] at happ
  all_goals subst happ
  all_goals simp_all [min_max_clamp]

/-- Witness for C6: the concrete context `exPomCtx` (four prior strikes,
reward 5, balance 100, minimum remaining balance 2) applies successfully and
produces `exPomRes` — a fifth strike at height 121, the ban flag set, and 5
credited. -/
theorem pomApply_effect_witness :
    exPomRes.delegate.pomHeights =
        exPomCtx.delegate.pomHeights ++ [exPomCtx.lastBlockHeight + 1] ∧
    (exPomRes.delegate.isBanned = true ↔ exPomRes.delegate.pomHeights.length = 5) ∧
    (¬ exPomCtx.senderAddress = exPomCtx.delegateAddress →
       exPomRes.creditedAmount =
         max 0 (min exPomCtx.lastBlockReward
           (exPomCtx.delegateBalance - exPomCtx.minRemainingBalance))) ∧
    (exPomCtx.senderAddress = exPomCtx.delegateAddress →
       exPomRes.creditedAmount = 0) :=
  pomApply_effect exPomCtx exPomRes (by rfl) (by decide)

end LiskChain
